import Mathlib

/-!
Verification of the "Demo Calculator & Ledger" single-file module
(src/js/app.js).  JavaScript numbers are modelled as rationals (ℚ):
every arithmetic operation the module performs (multiplication by 0.5,
subtraction, `Math.round(x*100)/100`) is exact on the inputs involved,
and NaN is modelled by `Option ℚ` (`none` = NaN), matching the code's
`isNaN` checks.  DOM state (form fields, preview visibility, history
table, alert dialogs) is modelled by an explicit `PageState` record,
and the one JavaScript runtime error the module can raise (reading a
property of `undefined`) by `Except JsError`.
-/

namespace Aici

/-- JavaScript `Math.round`: rounds half toward positive infinity,
i.e. `⌊x + 1/2⌋`. -/
def jsRound (x : ℚ) : ℤ := ⌊x + 1/2⌋

/-- Rounding to two decimal places as the code writes it:
`Math.round(x*100)/100`. -/
def round2 (x : ℚ) : ℚ := (jsRound (x * 100) : ℚ) / 100

/-- The advance of `compute` (src/js/app.js line 16):
`Math.round(montant*0.5*100)/100`. -/
def aiciOf (montant : ℚ) : ℚ := (jsRound (montant * (1/2) * 100) : ℚ) / 100

/-- The remainder of `compute` (src/js/app.js line 17):
`Math.round((montant - aici)*100)/100`. -/
def resteOf (montant : ℚ) : ℚ :=
  (jsRound ((montant - aiciOf montant) * 100) : ℚ) / 100

/-- Value of a list of decimal digit characters read as a natural
number, most significant first. -/
def digitsVal (ds : List Char) : ℕ :=
  ds.foldl (fun a c => 10 * a + (c.toNat - ('0').toNat)) 0

/-- The result of scanning a decimal literal: sign, integer digits,
fractional digits (with their count), decimal exponent. -/
structure NumScan where
  neg : Bool
  intVal : ℕ
  fracVal : ℕ
  fracLen : ℕ
  exp : ℤ
  deriving DecidableEq

/-- Scan an optional exponent part (`e`/`E`, optional sign, digits) at
the head of the character list; `parseFloat` keeps the longest valid
numeric-literal prefix, so an exponent marker without digits
contributes 0. -/
def scanExpPart (cs : List Char) : ℤ :=
  match cs with
  | 'e' :: r | 'E' :: r =>
    match r with
    | '-' :: r2 =>
      let ds := r2.takeWhile Char.isDigit
      if ds.isEmpty then 0 else -(digitsVal ds : ℤ)
    | '+' :: r2 =>
      let ds := r2.takeWhile Char.isDigit
      (digitsVal ds : ℤ)
    | _ =>
      let ds := r.takeWhile Char.isDigit
      (digitsVal ds : ℤ)
  | _ => 0

/-- Scan an unsigned decimal literal (`digits [. digits] [exponent]`)
at the head of the character list; `none` when no digit is present
before any exponent (the NaN case). -/
def scanUnsigned (neg : Bool) (cs : List Char) : Option NumScan :=
  let intDs := cs.takeWhile Char.isDigit
  let rest := cs.drop intDs.length
  let fracDs :=
    match rest with
    | '.' :: r => r.takeWhile Char.isDigit
    | _ => []
  let afterFrac :=
    match rest with
    | '.' :: r => r.drop fracDs.length
    | _ => rest
  if intDs.isEmpty ∧ fracDs.isEmpty then none
  else some ⟨neg, digitsVal intDs, digitsVal fracDs, fracDs.length, scanExpPart afterFrac⟩

/-- Scan a signed decimal literal after skipping leading whitespace. -/
def scanNumber (s : String) : Option NumScan :=
  let cs := s.data.dropWhile Char.isWhitespace
  match cs with
  | '-' :: r => scanUnsigned true r
  | '+' :: r => scanUnsigned false r
  | _ => scanUnsigned false cs

/-- The rational value denoted by a scanned decimal literal. -/
def NumScan.toRat (n : NumScan) : ℚ :=
  let mant : ℚ := (n.intVal : ℚ) + (n.fracVal : ℚ) / (10 : ℚ) ^ n.fracLen
  let signed : ℚ := if n.neg then -mant else mant
  if 0 ≤ n.exp then signed * (10 : ℚ) ^ n.exp.toNat
  else signed / (10 : ℚ) ^ (-n.exp).toNat

/-- JavaScript `parseFloat`: skip leading whitespace, read an optional
sign and then the longest decimal-literal prefix; `none` models NaN.
(The `Infinity` literal, which no input of this development uses, is
not representable in ℚ and is not modelled.) -/
def parseFloat (s : String) : Option ℚ :=
  (scanNumber s).map NumScan.toRat

/-- JavaScript `x || '0'` on a string: the empty string is falsy. -/
def orZero (s : String) : String := if s = "" then "0" else s

/-- JavaScript truthiness of a number: `NaN` and `0` are falsy,
everything else (negatives included) is truthy. -/
def numFalsy : Option ℚ → Bool
  | none => true
  | some q => decide (q = 0)

/-- JavaScript `String.prototype.trim`: strip whitespace from both
ends. -/
def jsTrim (s : String) : String :=
  ⟨((s.data.dropWhile Char.isWhitespace).reverse.dropWhile Char.isWhitespace).reverse⟩

/-- The numeric triple produced by `compute` (src/js/app.js
lines 13-26). -/
structure CalcResult where
  montant : ℚ
  aici : ℚ
  reste : ℚ
  deriving DecidableEq

/-- `compute` (src/js/app.js lines 13-26): parse the amount field
(empty field defaulting to `'0'`); on NaN or a non-positive value hide
the preview and return nothing, otherwise return the
montant/aici/reste triple.  The preview is hidden exactly when the
result is `none` (line 15 adds the `hidden` class, line 24 removes
it). -/
def compute (montantText : String) : Option CalcResult :=
  match parseFloat (orZero montantText) with
  | none => none
  | some montant =>
    if montant ≤ 0 then none
    else some ⟨montant, aiciOf montant, resteOf montant⟩

/-- Visibility of the preview area after `compute` runs: hidden iff the
parse/positivity guard fails. -/
def computeZoneHidden (montantText : String) : Bool :=
  (compute montantText).isNone

/-- `Intl.NumberFormat` default rounding: half away from zero
("halfExpand"). -/
def jsRoundAway (x : ℚ) : ℤ := if x < 0 then -⌊-x + 1/2⌋ else ⌊x + 1/2⌋

/-- Digit characters of a natural number, most significant first. -/
def natDigitChars (n : ℕ) : List Char := Nat.toDigits 10 n

/-- Insert the fr-FR grouping separator (narrow no-break space) every
three digits, working on a least-significant-first digit list. -/
def group3 : List Char → List Char
  | a :: b :: c :: d :: rest => a :: b :: c :: ' ' :: group3 (d :: rest)
  | l => l

/-- Render a signed amount of euro cents the way
`Intl.NumberFormat('fr-FR', {style:'currency', currency:'EUR'})` does:
grouped integer part, comma, two decimals, no-break space, euro
sign. -/
def formatCents (cents : ℤ) : String :=
  let n := cents.natAbs
  let euros := n / 100
  let sub := n % 100
  let grouped : String := ⟨(group3 (natDigitChars euros).reverse).reverse⟩
  let subStr : String := ⟨(if sub < 10 then ['0'] else []) ++ natDigitChars sub⟩
  (if cents < 0 then "-" else "") ++ grouped ++ "," ++ subStr ++ " €"

/-- `format` (src/js/app.js line 10): French-locale currency rendering
of a number.  (`Number(n||0)` maps a NaN argument to 0; every call
site in the module passes an actual number, so the argument is ℚ
here.) -/
def format (n : ℚ) : String := formatCents (jsRoundAway (n * 100))

/-- The four form fields, as raw field text. -/
structure FormState where
  client : String
  prestation : String
  datePrest : String
  montant : String
  deriving DecidableEq

/-- Modelled from the spec: `form.reset()` restores every field's
default value; the HTML document (not part of src/) declares no
default values, and the spec says submission "clears all form fields
to empty". -/
def FormState.reset : FormState := ⟨"", "", "", ""⟩

/-- One rendered history-table row (src/js/app.js line 39 / 54): date,
client, service, formatted gross amount, formatted advance, status
label. -/
structure Row where
  date : String
  client : String
  prestation : String
  montantCell : String
  aiciCell : String
  statut : String
  deriving DecidableEq

/-- The page state touched by the module: form fields, preview
visibility, history rows (top row first) and the alert dialogs shown
so far. -/
structure PageState where
  form : FormState
  calcZoneHidden : Bool
  history : List Row
  alerts : List String
  deriving DecidableEq

/-- The one abnormal termination the module can produce: reading
`.aici` of `undefined` (a TypeError). -/
inductive JsError
  | typeError
  deriving DecidableEq

/-- The validation check of the submit handler (src/js/app.js
line 36): `!c || !p || !m` on the trimmed client, trimmed service and
parsed amount. -/
def validationRejects (f : FormState) : Bool :=
  jsTrim f.client == "" || jsTrim f.prestation == "" ||
    numFalsy (parseFloat (orZero f.montant))

/-- Alert text of src/js/app.js line 36. -/
def alertIncomplete : String := "Merci de compléter le formulaire."

/-- Alert text of src/js/app.js line 43. -/
def alertTransmis : String :=
  "Dossier transmis (démo). Aucun envoi réel à l’URSSAF n’est effectué."

/-- The submit handler (src/js/app.js lines 30-44).  `todayStr` is the
string `today()` returns at that instant.  On validation failure the
alert is recorded and nothing else changes.  Otherwise `compute()`
runs again on the amount field; when it returns `undefined` (the
parsed amount is negative, which passes the truthy check), the access
`calc.aici` on line 39 raises a TypeError, modelled as
`Except.error`.  On success a row is prepended, the form is reset
(see `FormState.reset`), the preview is hidden and the confirmation
alert is recorded. -/
def submitEntry (todayStr : String) (st : PageState) : Except JsError PageState :=
  let c := jsTrim st.form.client
  let p := jsTrim st.form.prestation
  let d := if st.form.datePrest = "" then todayStr else st.form.datePrest
  let m := parseFloat (orZero st.form.montant)
  if validationRejects st.form then
    .ok { st with alerts := st.alerts ++ [alertIncomplete] }
  else
    match compute st.form.montant with
    | none => .error JsError.typeError
    | some res =>
      let row : Row := ⟨d, c, p, format (m.getD 0), format res.aici, "Transmis (démo)"⟩
      .ok { form := FormState.reset
            calcZoneHidden := true
            history := row :: st.history
            alerts := st.alerts ++ [alertTransmis] }

/-- The seed advance (src/js/app.js line 53): `x.m*0.5`, with no
rounding step. -/
def seedAici (m : ℚ) : ℚ := m * (1/2)

/-- The two demo rows appended at load (src/js/app.js lines 47-56),
in `appendChild` order. -/
def seedRows : List Row :=
  [ ⟨"2025-10-12", "Mme Dupont", "Entretien jardin",
      format 80, format (seedAici 80), "Réglé (démo)"⟩,
    ⟨"2025-10-05", "M. Martin", "Bricolage léger",
      format 120, format (seedAici 120), "Réglé (démo)"⟩ ]

/-- The page state after the script has run at load: empty form, no
alerts, and the seed rows appended to the (initially empty) history
table.  The preview area starts hidden. -/
def initialState : PageState :=
  { form := FormState.reset
    calcZoneHidden := true
    history := ([] : List Row) ++ seedRows
    alerts := [] }

/-- Civil date (year, month, day) of a day count relative to
1970-01-01, proleptic Gregorian (Howard Hinnant's `civil_from_days`;
the intermediate quantities are non-negative, so truncating integer
division agrees with the reference algorithm). -/
def civilFromDays (z0 : ℤ) : ℤ × ℤ × ℤ :=
  let z := z0 + 719468
  let era := z.fdiv 146097
  let doe := z - era * 146097
  let yoe := (doe - doe / 1460 + doe / 36524 - doe / 146096) / 365
  let y := yoe + era * 400
  let doy := doe - (365 * yoe + yoe / 4 - yoe / 100)
  let mp := (5 * doy + 2) / 153
  let d := doy - (153 * mp + 2) / 5 + 1
  let m := if mp < 10 then mp + 3 else mp - 9
  (if m ≤ 2 then y + 1 else y, m, d)

/-- Decimal rendering of a natural number, left-padded with zeros to a
given width. -/
def padNat (len : ℕ) (n : ℕ) : String :=
  let ds := natDigitChars n
  ⟨List.replicate (len - ds.length) '0' ++ ds⟩

/-- `YYYY-MM-DD` rendering of a day count relative to 1970-01-01
(years of the dates involved here are in 1..9999). -/
def isoOfDays (z : ℤ) : String :=
  let c := civilFromDays z
  padNat 4 c.1.toNat ++ "-" ++ padNat 2 c.2.1.toNat ++ "-" ++ padNat 2 c.2.2.toNat

/-- `today` (src/js/app.js line 11):
`new Date().toISOString().slice(0,10)` — the current **UTC** date in
ISO form, as a function of the current epoch time in milliseconds. -/
def today (ms : ℤ) : String := isoOfDays (ms.fdiv 86400000)

/-- Modelled from the spec's words (the refinement target for the
date-default claim): "the current local date in ISO form
(YYYY-MM-DD)" — the civil date at the given epoch instant in a zone
with the given UTC offset in milliseconds. -/
def specLocalToday (ms tzOffsetMs : ℤ) : String :=
  isoOfDays ((ms + tzOffsetMs).fdiv 86400000)

end Aici

namespace Aici

/-! ### General lemmas about the computation -/

/-- The two independently rounded terms recombine exactly: the floor of
the remainder's argument shifts by the integer number of advance
cents. -/
theorem aiciOf_add_resteOf (A : ℚ) : aiciOf A + resteOf A = round2 A := by
  simp only [resteOf, aiciOf, round2, jsRound]
  have harg : (A - (⌊A * (1/2) * 100 + 1/2⌋ : ℚ) / 100) * 100 + 1/2
      = (A * 100 + 1/2) - (⌊A * (1/2) * 100 + 1/2⌋ : ℤ) := by
    ring
  rw [harg, Int.floor_sub_int]
  push_cast
  ring

/-- Evaluation rule for `parseFloat` from a scan result. -/
theorem parseFloat_of_scan (s : String) (n : NumScan) (q : ℚ)
    (hs : scanNumber s = some n) (hq : NumScan.toRat n = q) :
    parseFloat s = some q := by
  rw [parseFloat, hs, Option.map_some', hq]

theorem parse_m80 : parseFloat (orZero "80") = some 80 :=
  parseFloat_of_scan _ ⟨false, 80, 0, 0, 0⟩ _ (by decide) (by norm_num [NumScan.toRat])

theorem parse_m0 : parseFloat (orZero "0") = some 0 :=
  parseFloat_of_scan _ ⟨false, 0, 0, 0, 0⟩ _ (by decide) (by norm_num [NumScan.toRat])

theorem parse_m_neg5 : parseFloat (orZero "-5") = some (-5) :=
  parseFloat_of_scan _ ⟨true, 5, 0, 0, 0⟩ _ (by decide) (by norm_num [NumScan.toRat])

theorem parse_m_abc : parseFloat (orZero "abc") = none := by
  have hs : scanNumber (orZero "abc") = none := by decide
  rw [parseFloat, hs, Option.map_none']

theorem parse_m80abc : parseFloat (orZero "80abc") = some 80 :=
  parseFloat_of_scan _ ⟨false, 80, 0, 0, 0⟩ _ (by decide) (by norm_num [NumScan.toRat])

/-- Evaluation rule for `compute` on a positive parsed amount. -/
theorem compute_of_pos (t : String) (q : ℚ)
    (hm : parseFloat (orZero t) = some q) (hq : 0 < q) :
    compute t = some ⟨q, aiciOf q, resteOf q⟩ := by
  rw [compute, hm]
  simp [not_le.mpr hq]

/-- Evaluation rule for `compute` on a failed or non-positive parse. -/
theorem compute_none (t : String)
    (h : parseFloat (orZero t) = none ∨ ∃ q, parseFloat (orZero t) = some q ∧ q ≤ 0) :
    compute t = none := by
  rcases h with h | ⟨q, hq, hle⟩
  · rw [compute, h]
  · rw [compute, hq]
    simp [hle]

end Aici

namespace Aici

/-- The validation check passes whenever both trimmed text fields are
non-empty and the parsed amount is a number other than 0 — the sign is
not consulted. -/
theorem validationRejects_false (f : FormState) (q : ℚ)
    (hc : jsTrim f.client ≠ "") (hp : jsTrim f.prestation ≠ "")
    (hm : parseFloat (orZero f.montant) = some q) (hq : q ≠ 0) :
    validationRejects f = false := by
  simp [validationRejects, hm, numFalsy, hc, hp, hq]

/-- The validation check fires whenever a trimmed text field is empty
or the amount parses to NaN or 0. -/
theorem validationRejects_true (f : FormState)
    (h : jsTrim f.client = "" ∨ jsTrim f.prestation = "" ∨
         parseFloat (orZero f.montant) = none ∨
         parseFloat (orZero f.montant) = some 0) :
    validationRejects f = true := by
  rcases h with h | h | h | h <;> simp [validationRejects, h, numFalsy]

/-- On a rejected validation the handler only records the alert. -/
theorem submitEntry_rejected (todayStr : String) (st : PageState)
    (hv : validationRejects st.form = true) :
    submitEntry todayStr st = .ok { st with alerts := st.alerts ++ [alertIncomplete] } := by
  simp [submitEntry, hv]

/-- Full evaluation of a successful submission. -/
theorem submitEntry_ok (todayStr : String) (st : PageState) (q : ℚ)
    (hc : jsTrim st.form.client ≠ "") (hp : jsTrim st.form.prestation ≠ "")
    (hm : parseFloat (orZero st.form.montant) = some q) (hq : 0 < q) :
    submitEntry todayStr st = .ok
      { form := FormState.reset
        calcZoneHidden := true
        history :=
          ⟨if st.form.datePrest = "" then todayStr else st.form.datePrest,
           jsTrim st.form.client, jsTrim st.form.prestation,
           format q, format (aiciOf q), "Transmis (démo)"⟩ :: st.history
        alerts := st.alerts ++ [alertTransmis] } := by
  have hv : validationRejects st.form = false :=
    validationRejects_false st.form q hc hp hm hq.ne'
  have hcmp : compute st.form.montant = some ⟨q, aiciOf q, resteOf q⟩ :=
    compute_of_pos st.form.montant q hm hq
  simp [submitEntry, hv, hcmp, hm]

/-- A negative parsed amount slips past validation and then crashes on
`calc.aici`. -/
theorem submitEntry_error (todayStr : String) (st : PageState) (q : ℚ)
    (hc : jsTrim st.form.client ≠ "") (hp : jsTrim st.form.prestation ≠ "")
    (hm : parseFloat (orZero st.form.montant) = some q) (hq : q < 0) :
    submitEntry todayStr st = .error JsError.typeError := by
  have hv : validationRejects st.form = false :=
    validationRejects_false st.form q hc hp hm hq.ne
  have hcmp : compute st.form.montant = none :=
    compute_none st.form.montant (Or.inr ⟨q, hm, hq.le⟩)
  simp [submitEntry, hv, hcmp]

end Aici

namespace Aici

/-- C1: for every positive amount A, the computed advance
round(A×0.5, 2dp) plus the computed remainder round(A − advance, 2dp)
equals round(A, 2dp) within a tolerance of 1e-9 (the recombination is
in fact exact over the rationals). -/
theorem C1_advance_plus_remainder (A : ℚ) (_hA : 0 < A) :
    |aiciOf A + resteOf A - round2 A| ≤ 1 / 1000000000 := by
  rw [aiciOf_add_resteOf, sub_self, abs_zero]
  norm_num

/-- C1 witness: the invariant holds at A ∈ {80, 120, 0.01, 99.99,
1000000}. -/
theorem C1_advance_plus_remainder_witness :
    (0 < (80 : ℚ) ∧ |aiciOf 80 + resteOf 80 - round2 80| ≤ 1 / 1000000000) ∧
    (0 < (120 : ℚ) ∧ |aiciOf 120 + resteOf 120 - round2 120| ≤ 1 / 1000000000) ∧
    (0 < (1/100 : ℚ) ∧ |aiciOf (1/100) + resteOf (1/100) - round2 (1/100)| ≤ 1 / 1000000000) ∧
    (0 < (9999/100 : ℚ) ∧
      |aiciOf (9999/100) + resteOf (9999/100) - round2 (9999/100)| ≤ 1 / 1000000000) ∧
    (0 < (1000000 : ℚ) ∧
      |aiciOf 1000000 + resteOf 1000000 - round2 1000000| ≤ 1 / 1000000000) :=
  ⟨⟨by norm_num, C1_advance_plus_remainder 80 (by norm_num)⟩,
   ⟨by norm_num, C1_advance_plus_remainder 120 (by norm_num)⟩,
   ⟨by norm_num, C1_advance_plus_remainder (1/100) (by norm_num)⟩,
   ⟨by norm_num, C1_advance_plus_remainder (9999/100) (by norm_num)⟩,
   ⟨by norm_num, C1_advance_plus_remainder 1000000 (by norm_num)⟩⟩

/-- C3: for every amount text parsing to a value strictly greater
than 0, `compute` returns the triple (total, round(amount × 0.5, 2dp),
round(amount − advance, 2dp)) — with `Math.round`, i.e. round-half-up
— and shows the preview area. -/
theorem C3_preview_formulas (t : String) (q : ℚ)
    (hm : parseFloat (orZero t) = some q) (hq : 0 < q) :
    compute t = some ⟨q, round2 (q * (1/2)), round2 (q - round2 (q * (1/2)))⟩ ∧
      computeZoneHidden t = false := by
  have h := compute_of_pos t q hm hq
  refine ⟨?_, ?_⟩
  · rw [h]
    rfl
  · rw [computeZoneHidden, h]
    rfl

/-- C3 witness: the amount text "80" yields the rounded triple and a
visible preview. -/
theorem C3_preview_formulas_witness :
    (parseFloat (orZero "80") = some 80 ∧ (0:ℚ) < 80) ∧
    compute "80" = some ⟨80, round2 (80 * (1/2)), round2 (80 - round2 (80 * (1/2)))⟩ ∧
      computeZoneHidden "80" = false :=
  ⟨⟨parse_m80, by norm_num⟩, C3_preview_formulas "80" 80 parse_m80 (by norm_num)⟩

/-- C4: the submit handler rejects with the blocking alert and changes
nothing else whenever the trimmed client or the trimmed service is
empty, or the amount parses to 0 or NaN; an empty client is rejected
regardless of the other fields. -/
theorem C4_submit_rejects (todayStr : String) (st : PageState)
    (h : jsTrim st.form.client = "" ∨ jsTrim st.form.prestation = "" ∨
         parseFloat (orZero st.form.montant) = none ∨
         parseFloat (orZero st.form.montant) = some 0) :
    submitEntry todayStr st = .ok { st with alerts := st.alerts ++ [alertIncomplete] } :=
  submitEntry_rejected todayStr st (validationRejects_true st.form h)

/-- C4 witness: an empty client with all other fields valid, and an
amount of "0" with all other fields valid, are both rejected with only
the alert recorded. -/
theorem C4_submit_rejects_witness :
    submitEntry "2025-01-01" ⟨⟨"", "B", "", "80"⟩, true, [], []⟩
      = .ok { (⟨⟨"", "B", "", "80"⟩, true, [], []⟩ : PageState) with
              alerts := [] ++ [alertIncomplete] } ∧
    submitEntry "2025-01-01" ⟨⟨"A", "B", "", "0"⟩, true, [], []⟩
      = .ok { (⟨⟨"A", "B", "", "0"⟩, true, [], []⟩ : PageState) with
              alerts := [] ++ [alertIncomplete] } :=
  ⟨C4_submit_rejects "2025-01-01" _ (Or.inl (by decide)),
   C4_submit_rejects "2025-01-01" _ (Or.inr (Or.inr (Or.inr parse_m0)))⟩

/-- C5: whenever the amount text fails to parse or parses to a value
≤ 0, `compute` hides the preview area and returns no result. -/
theorem C5_preview_silent (t : String)
    (h : parseFloat (orZero t) = none ∨
         ∃ q, parseFloat (orZero t) = some q ∧ q ≤ 0) :
    compute t = none ∧ computeZoneHidden t = true := by
  have hc := compute_none t h
  exact ⟨hc, by rw [computeZoneHidden, hc]; rfl⟩

/-- C5 witness: the inputs "0", "-5" and "abc" all yield a hidden
preview and no result. -/
theorem C5_preview_silent_witness :
    (compute "0" = none ∧ computeZoneHidden "0" = true) ∧
    (compute "-5" = none ∧ computeZoneHidden "-5" = true) ∧
    (compute "abc" = none ∧ computeZoneHidden "abc" = true) :=
  ⟨C5_preview_silent "0" (Or.inr ⟨0, parse_m0, le_refl 0⟩),
   C5_preview_silent "-5" (Or.inr ⟨-5, parse_m_neg5, by norm_num⟩),
   C5_preview_silent "abc" (Or.inl parse_m_abc)⟩

/-- C6: the submission validation does not consult the sign of the
parsed amount: any amount text parsing to a strictly negative number,
with non-empty trimmed client and service, passes the constraint
check. -/
theorem C6_sign_not_checked (f : FormState) (q : ℚ)
    (hc : jsTrim f.client ≠ "") (hp : jsTrim f.prestation ≠ "")
    (hm : parseFloat (orZero f.montant) = some q) (hq : q < 0) :
    validationRejects f = false :=
  validationRejects_false f q hc hp hm hq.ne

/-- C6 witness: the amount text "-5" with client "A" and service "B"
passes validation. -/
theorem C6_sign_not_checked_witness :
    validationRejects ⟨"A", "B", "", "-5"⟩ = false :=
  C6_sign_not_checked ⟨"A", "B", "", "-5"⟩ (-5) (by decide) (by decide)
    parse_m_neg5 (by norm_num)

end Aici

namespace Aici

/-- C2 counterexample: with client "A", service "B" and amount "-5",
validation passes but `compute()` returns no result, and the access
`calc.aici` aborts the submit handler with a TypeError — the handler
does not run to completion. -/
theorem C2_counterexample_negative_amount_throws :
    submitEntry "2025-01-01" ⟨⟨"A", "B", "", "-5"⟩, true, [], []⟩
      = .error JsError.typeError :=
  submitEntry_error "2025-01-01" ⟨⟨"A", "B", "", "-5"⟩, true, [], []⟩ (-5)
    (by decide) (by decide) parse_m_neg5 (by norm_num)

/-- C2 (amended): the submit handler aborts with an exception exactly
when the trimmed client and service are non-empty and the amount text
parses to a strictly negative number; on every other input it runs to
completion. -/
theorem C2_amended_throw_iff (todayStr : String) (st : PageState) :
    (∃ e, submitEntry todayStr st = .error e) ↔
      (jsTrim st.form.client ≠ "" ∧ jsTrim st.form.prestation ≠ "" ∧
       ∃ q, parseFloat (orZero st.form.montant) = some q ∧ q < 0) := by
  constructor
  · rintro ⟨e, he⟩
    by_cases hv : validationRejects st.form = true
    · rw [submitEntry_rejected todayStr st hv] at he
      exact absurd he (by simp)
    · have hv' : validationRejects st.form = false := Bool.eq_false_iff.mpr hv
      have hcv := hv'
      simp only [validationRejects, Bool.or_eq_false_iff, beq_eq_false_iff_ne] at hcv
      obtain ⟨⟨hc, hp⟩, hnf⟩ := hcv
      rcases hparse : parseFloat (orZero st.form.montant) with _ | q
      · rw [hparse] at hnf
        simp [numFalsy] at hnf
      · rw [hparse] at hnf
        simp only [numFalsy, decide_eq_false_iff_not] at hnf
        rcases lt_trichotomy q 0 with hq | hq | hq
        · exact ⟨hc, hp, q, rfl, hq⟩
        · exact absurd hq hnf
        · rw [submitEntry_ok todayStr st q hc hp hparse hq] at he
          exact absurd he (by simp)
  · rintro ⟨hc, hp, q, hm, hq⟩
    exact ⟨JsError.typeError, submitEntry_error todayStr st q hc hp hm hq⟩

/-- C7 counterexample: at epoch instant 0 in a zone one hour west of
UTC, a submission with an empty date field records "1970-01-01" (the
UTC date that `toISOString` produces) while the current local date is
"1969-12-31" — the recorded date is not the current local date. -/
theorem C7_counterexample_date_not_local :
    submitEntry (today 0) ⟨⟨"A", "B", "", "80"⟩, true, [], []⟩
      = .ok { form := FormState.reset
              calcZoneHidden := true
              history := [⟨"1970-01-01", "A", "B",
                           format 80, format (aiciOf 80), "Transmis (démo)"⟩]
              alerts := [alertTransmis] } ∧
    specLocalToday 0 (-3600000) = "1969-12-31" ∧
    ("1970-01-01" : String) ≠ "1969-12-31" := by
  refine ⟨?_, by decide, by decide⟩
  have h := submitEntry_ok (today 0) ⟨⟨"A", "B", "", "80"⟩, true, [], []⟩ 80
    (by decide) (by decide) parse_m80 (by norm_num)
  rw [h]
  have ht : today 0 = "1970-01-01" := by decide
  rw [ht]
  rfl

/-- C7 (amended): when the date field is empty, the recorded date of
the new history row is the current UTC date in ISO form — the date
`toISOString` yields — not necessarily the local date. -/
theorem C7_amended_date_defaults_utc (ms : ℤ) (st : PageState) (q : ℚ)
    (hd : st.form.datePrest = "")
    (hc : jsTrim st.form.client ≠ "") (hp : jsTrim st.form.prestation ≠ "")
    (hm : parseFloat (orZero st.form.montant) = some q) (hq : 0 < q) :
    submitEntry (today ms) st = .ok
      { form := FormState.reset
        calcZoneHidden := true
        history := ⟨today ms, jsTrim st.form.client, jsTrim st.form.prestation,
                    format q, format (aiciOf q), "Transmis (démo)"⟩ :: st.history
        alerts := st.alerts ++ [alertTransmis] } := by
  rw [submitEntry_ok (today ms) st q hc hp hm hq, if_pos hd]

/-- C7 (amended) witness: a concrete empty-date submission at epoch
instant 1760000000000 records `today 1760000000000`. -/
theorem C7_amended_date_defaults_utc_witness :
    submitEntry (today 1760000000000) ⟨⟨"A", "B", "", "80"⟩, true, [], []⟩ = .ok
      { form := FormState.reset
        calcZoneHidden := true
        history := [⟨today 1760000000000, jsTrim "A", jsTrim "B",
                     format 80, format (aiciOf 80), "Transmis (démo)"⟩]
        alerts := [alertTransmis] } :=
  C7_amended_date_defaults_utc 1760000000000 ⟨⟨"A", "B", "", "80"⟩, true, [], []⟩ 80
    (by decide) (by decide) (by decide) parse_m80 (by norm_num)

/-- C8: every valid submission prepends the row [date, trimmed client,
trimmed service, formatted gross amount, formatted advance,
"Transmis (démo)"] to the history, resets the form fields to empty,
hides the preview area and records the confirmation alert. -/
theorem C8_submit_success (todayStr : String) (st : PageState) (q : ℚ)
    (hc : jsTrim st.form.client ≠ "") (hp : jsTrim st.form.prestation ≠ "")
    (hm : parseFloat (orZero st.form.montant) = some q) (hq : 0 < q) :
    submitEntry todayStr st = .ok
      { form := FormState.reset
        calcZoneHidden := true
        history :=
          ⟨if st.form.datePrest = "" then todayStr else st.form.datePrest,
           jsTrim st.form.client, jsTrim st.form.prestation,
           format q, format (aiciOf q), "Transmis (démo)"⟩ :: st.history
        alerts := st.alerts ++ [alertTransmis] } :=
  submitEntry_ok todayStr st q hc hp hm hq

/-- C8 witness: submitting client "Mme Dupont", service "Jardinage",
date "2025-10-12" and amount "80" prepends the expected row, resets
the form and hides the preview. -/
theorem C8_submit_success_witness :
    submitEntry "2025-01-01"
        ⟨⟨"Mme Dupont", "Jardinage", "2025-10-12", "80"⟩, false, [], []⟩ = .ok
      { form := FormState.reset
        calcZoneHidden := true
        history := [⟨"2025-10-12", "Mme Dupont", "Jardinage",
                     format 80, format (aiciOf 80), "Transmis (démo)"⟩]
        alerts := [alertTransmis] } :=
  C8_submit_success "2025-01-01"
    ⟨⟨"Mme Dupont", "Jardinage", "2025-10-12", "80"⟩, false, [], []⟩ 80
    (by decide) (by decide) parse_m80 (by norm_num)

/-- C9: at load exactly the two fixed seed rows are appended, in
order, with amounts 80 and 120, advances computed as amount × 0.5
without the live path's 2-decimal rounding (40 and 60), status
"Réglé (démo)"; and any successful submission keeps them at the bottom
of the history, below the submitted rows. -/
theorem C9_seed_rows (todayStr : String) (st st' : PageState) (pre : List Row)
    (h1 : st.history = pre ++ seedRows)
    (h2 : submitEntry todayStr st = .ok st') :
    initialState.history = seedRows ∧
    seedRows =
      [⟨"2025-10-12", "Mme Dupont", "Entretien jardin",
        format 80, format (seedAici 80), "Réglé (démo)"⟩,
       ⟨"2025-10-05", "M. Martin", "Bricolage léger",
        format 120, format (seedAici 120), "Réglé (démo)"⟩] ∧
    seedAici 80 = 40 ∧ seedAici 120 = 60 ∧
    ∃ pre', st'.history = pre' ++ seedRows := by
  refine ⟨rfl, rfl, by norm_num [seedAici], by norm_num [seedAici], ?_⟩
  by_cases hv : validationRejects st.form = true
  · rw [submitEntry_rejected todayStr st hv] at h2
    injection h2 with h3
    subst h3
    exact ⟨pre, h1⟩
  · have hv' : validationRejects st.form = false := Bool.eq_false_iff.mpr hv
    simp only [submitEntry, hv', Bool.false_eq_true, if_false] at h2
    rcases hcm : compute st.form.montant with _ | res
    · rw [hcm] at h2
      simp at h2
    · rw [hcm] at h2
      injection h2 with h3
      subst h3
      dsimp only
      rw [h1]
      exact ⟨_ :: pre, rfl⟩

/-- C9 witness: starting from the freshly loaded page with the form
filled in, a successful submission leaves the two seed rows at the
bottom. -/
theorem C9_seed_rows_witness :
    initialState.history = seedRows ∧
    seedRows =
      [⟨"2025-10-12", "Mme Dupont", "Entretien jardin",
        format 80, format (seedAici 80), "Réglé (démo)"⟩,
       ⟨"2025-10-05", "M. Martin", "Bricolage léger",
        format 120, format (seedAici 120), "Réglé (démo)"⟩] ∧
    seedAici 80 = 40 ∧ seedAici 120 = 60 ∧
    ∃ pre', (PageState.mk FormState.reset true
        (Row.mk "2025-01-02" "A" "B" (format 80) (format (aiciOf 80)) "Transmis (démo)"
          :: seedRows)
        [alertTransmis]).history = pre' ++ seedRows :=
  C9_seed_rows "2025-01-01" ⟨⟨"A", "B", "2025-01-02", "80"⟩, true, seedRows, []⟩ _ [] rfl
    (submitEntry_ok "2025-01-01" ⟨⟨"A", "B", "2025-01-02", "80"⟩, true, seedRows, []⟩ 80
      (by decide) (by decide) parse_m80 (by norm_num))

/-- C10: `parseFloat` keeps a leading numeric prefix: "80abc" parses
to 80, so the preview is shown with advance 40, and a submission with
that amount text is accepted and recorded rather than treated as a
parse failure. -/
theorem C10_leading_numeric_prefix :
    parseFloat "80abc" = some 80 ∧
    compute "80abc" = some ⟨80, 40, 40⟩ ∧
    computeZoneHidden "80abc" = false ∧
    submitEntry "2025-01-01" ⟨⟨"A", "B", "", "80abc"⟩, true, [], []⟩ = .ok
      { form := FormState.reset
        calcZoneHidden := true
        history := [⟨"2025-01-01", "A", "B",
                     format 80, format (aiciOf 80), "Transmis (démo)"⟩]
        alerts := [alertTransmis] } := by
  have hcmp := compute_of_pos "80abc" 80 parse_m80abc (by norm_num)
  have ha : aiciOf 80 = 40 := by norm_num [aiciOf, jsRound]
  have hr : resteOf 80 = 40 := by norm_num [resteOf, aiciOf, jsRound]
  refine ⟨parse_m80abc, ?_, ?_, ?_⟩
  · rw [hcmp, ha, hr]
  · rw [computeZoneHidden, hcmp]
    rfl
  · rw [submitEntry_ok "2025-01-01" ⟨⟨"A", "B", "", "80abc"⟩, true, [], []⟩ 80
      (by decide) (by decide) parse_m80abc (by norm_num)]
    rfl

end Aici
